import Mathlib

/-!
Shallow embedding of the position-ingestion and reverse-geocoding core of
`src/main.py` (FastAPI handlers `save_position`, `update_position`,
`get_positions`, `get_latest_position`).

Modelling conventions:

* Python floats are carried by their decimal string rendering (`PyFloat`):
  the handlers never compute with latitude/longitude, they only interpolate
  them into f-strings and store them verbatim, so the rendering is all that
  is observable.
* The MongoDB collection `db.vehicle_positions` is a list of `StoredDoc`,
  with `insert_one` appending at the end.  The store-assigned `_id` field
  (and the handlers' `str(pos["_id"])` conversion) carries no behavioural
  content for the claims and is not modelled.
* The outcome of the outbound HTTP interaction with the geocoding service is
  a parameter of type `GeoOutcome`: either the `client.get` call raises
  (timeout / transport failure), or a response with some status code arrives,
  whose body either parses to a `GeoBody` or is malformed (`none`).
* Each handler is a pure function from its request data, the current server
  time, the geocoding outcome and the store to (response, new store).
-/

/-- A Python `float`, represented by its `str()` rendering (e.g. `"12.34"`).
The handlers treat coordinates opaquely: they are stored as given and
interpolated into f-strings, never computed with. -/
structure PyFloat where
  render : String
deriving DecidableEq

/-- JSON values as Python objects, as far as the handlers inspect them.
Numbers carry their Python rendering (see `PyFloat`). -/
inductive JVal where
  | null
  | bool (b : Bool)
  | num (f : PyFloat)
  | str (s : String)
  | list (xs : List JVal)

/-- Python `repr()` of a `JVal` (used by `str()` on list elements). -/
def JVal.pyRepr : JVal → String
  | .null => "None"
  | .bool true => "True"
  | .bool false => "False"
  | .num f => f.render
  | .str s => "\x27" ++ s ++ "\x27"
  | .list xs => "[" ++ String.intercalate ", " (xs.attach.map (fun x => JVal.pyRepr x.1)) ++ "]"
decreasing_by
  simp_wf
  have h := List.sizeOf_lt_of_mem x.2
  omega

/-- Python `str()` of a `JVal`: identity on strings and, as `str` and
`repr` coincide on `None`, booleans, numbers and lists, `repr`'s rendering
otherwise (list elements rendered through `repr`). -/
def JVal.pyStr : JVal → String
  | .null => "None"
  | .bool true => "True"
  | .bool false => "False"
  | .num f => f.render
  | .str s => s
  | .list xs => "[" ++ String.intercalate ", " (xs.map JVal.pyRepr) ++ "]"

/-- Python truthiness of a `JVal` (`bool(v)`): `None`, `False`, zero, the
empty string and the empty list are falsy.  A number is zero exactly when it
renders as `0`, `0.0` or `-0.0`. -/
def JVal.truthy : JVal → Bool
  | .null => false
  | .bool b => b
  | .num f => !(f.render == "0" || f.render == "0.0" || f.render == "-0.0")
  | .str s => s != ""
  | .list xs => !xs.isEmpty

/-- `isinstance(v, list)`. -/
def JVal.isList : JVal → Bool
  | .list _ => true
  | _ => false

/-- Python `len()` on a list value (only reached after `isinstance(v, list)`
in the source; `0` elsewhere keeps the function total). -/
def JVal.listLen : JVal → Nat
  | .list xs => xs.length
  | _ => 0

/-- Python `v[i]` on a list value (only reached on two-element lists in the
source; `None` elsewhere keeps the function total). -/
def JVal.idx : JVal → Nat → JVal
  | .list xs, i => xs.getD i .null
  | _, _ => .null

/-- `data.get(k)` on a parsed JSON object modelled as an association list:
the bound value, or `None` when the key is absent. -/
def jsonGet (body : List (String × JVal)) (k : String) : JVal :=
  (body.lookup k).getD .null

/-- The structured `address` sub-object of a Nominatim `jsonv2` reverse
geocoding response: the optional components the code reads. -/
structure Address where
  suburb : Option String
  village : Option String
  town : Option String
  city : Option String
  county : Option String
  state : Option String

/-- The empty address object, `data.get("address", {})`'s default. -/
def emptyAddress : Address := ⟨none, none, none, none, none, none⟩

/-- A parsed geocoding response body: the `address` sub-object (absent when
the key is missing) and the top-level `display_name`. -/
structure GeoBody where
  address : Option Address
  display_name : Option String

/-- Outcome of the outbound geocoding HTTP interaction: the `client.get`
call raises (connect/read timeout or transport error), or a response with a
status code arrives whose body parses to `some` `GeoBody` or is
malformed (`none`). -/
inductive GeoOutcome where
  | exn
  | response (status : Nat) (body : Option GeoBody)

/-- A raised Python exception, as far as the handlers distinguish them
(they catch bare `Exception`). -/
inductive PyExn where
  | typeError

/-- Models the source line `data = await resp.json()` where `resp` is an
`httpx.Response`: httpx's `Response.json()` is a plain synchronous method
returning the parsed dict, so `await` applied to its result (a dict, which
has no `__await__`) raises `TypeError` before the value can be bound.  The
expression therefore never produces a value, whatever the body was.  (The
repository's other awaits — Starlette's `request.json()` and the motor
database calls — are genuine coroutines; only the httpx ones are affected.) -/
def awaitRespJson (_body : Option GeoBody) : Except PyExn GeoBody :=
  Except.error PyExn.typeError

/-- Python `x or y` where `x` is an optional string: `y` when `x` is `None`
or the empty string (falsy), else the string itself. -/
def orS (x : Option String) (y : String) : String :=
  match x with
  | some s => if s == "" then y else s
  | none => y

/-- The numeric-coordinate fallback label `f"{lat}, {lon}"` built from the
rendered coordinates. -/
def coordFallback (latS lonS : String) : String :=
  latS ++ ", " ++ lonS

/-- The preference chain of `src/main.py` lines 82–91 (and identically
lines 149–158): first truthy of `address.get("suburb")`,
`address.get("village")`, `address.get("town")`, `address.get("city")`,
`address.get("county")`, `address.get("state")`, `data.get("display_name")`,
else the numeric fallback, with `address = data.get("address", {})`. -/
def chainLabel (data : GeoBody) (fallback : String) : String :=
  match data.address.getD emptyAddress with
  | a =>
    orS a.suburb (orS a.village (orS a.town (orS a.city (orS a.county
      (orS a.state (orS data.display_name fallback))))))

/-- The geocoding step of `save_position` (`src/main.py` lines 74–95) as a
function of the network outcome and the rendered coordinates: inside
`try`, `client.get` either raises or yields `resp`; on `status_code == 200`
the code evaluates `await resp.json()` (see `awaitRespJson`) and would feed
the result to the preference chain; any raise is caught by the bare
`except` which sets the numeric fallback, as does the non-200 branch. -/
def resolveSubmit (outcome : GeoOutcome) (latS lonS : String) : String :=
  match outcome with
  | .exn => coordFallback latS lonS
  | .response status body =>
    if status == 200 then
      match awaitRespJson body with
      | .ok data => chainLabel data (coordFallback latS lonS)
      | .error _ => coordFallback latS lonS
    else
      coordFallback latS lonS

/-- The on-read geocoding step of `get_latest_position` (`src/main.py`
lines 141–162): textually the same `try`/`status == 200`/`await
resp.json()`/chain/`except` structure as `resolveSubmit`, with a 5-second
rather than 10-second client timeout. -/
def resolveLatest (outcome : GeoOutcome) (latS lonS : String) : String :=
  match outcome with
  | .exn => coordFallback latS lonS
  | .response status body =>
    if status == 200 then
      match awaitRespJson body with
      | .ok data => chainLabel data (coordFallback latS lonS)
      | .error _ => coordFallback latS lonS
    else
      coordFallback latS lonS

/-- The `httpx.AsyncClient(timeout=10.0)` bound on the ingestion path. -/
def submitGeocodeTimeout : Rat := 10

/-- The `httpx.AsyncClient(timeout=5.0)` bound on the latest-position
fallback path. -/
def latestGeocodeTimeout : Rat := 5

/-- A stored `vehicle_id` value.  The enriched submit path stores the
pydantic-validated `int` field of `VehiclePosition`, while the lightweight
update path stores the `{vehicle_id}` path parameter, a `str`; BSON equality
never identifies the two. -/
inductive VId where
  | int (n : Int)
  | str (s : String)
deriving DecidableEq

/-- A document of the `vehicle_positions` collection.  `latitude` and
`longitude` are whatever value the write path stored (a float on the submit
path, arbitrary JSON on the update path); `live_location` is present only
when the write path set it. -/
structure StoredDoc where
  vehicle_id : VId
  latitude : JVal
  longitude : JVal
  timestamp : Nat
  live_location : Option String

/-- The `vehicle_positions` collection; `insert_one` appends. -/
abbrev Store := List StoredDoc

/-- The pydantic request model `VehiclePosition` of `src/main.py`:
`vehicle_id: int`, `latitude: float`, `longitude: float`,
`timestamp: Optional[datetime]`. -/
structure VehiclePosition where
  vehicle_id : Int
  latitude : PyFloat
  longitude : PyFloat
  timestamp : Option Nat

/-- A JSON confirmation body `{"status": ...}`. -/
structure ApiStatus where
  status : String
deriving DecidableEq

/-- A raised `HTTPException(status_code=..., detail=...)`. -/
structure HTTPExc where
  status_code : Nat
  detail : String
deriving DecidableEq

/-- Handler `save_position` (`POST /positions/`, `src/main.py` lines
68–97): default a missing timestamp to the current UTC time, run the
geocoding step (`resolveSubmit`) whose result becomes `live_location`,
insert the document, return the confirmation. -/
def save_position (position : VehiclePosition) (now : Nat) (outcome : GeoOutcome)
    (store : Store) : ApiStatus × Store :=
  let ts := match position.timestamp with
    | some t => t
    | none => now
  let live := resolveSubmit outcome position.latitude.render position.longitude.render
  let doc : StoredDoc :=
    ⟨VId.int position.vehicle_id, JVal.num position.latitude, JVal.num position.longitude,
      ts, some live⟩
  (⟨"Position saved successfully"⟩, store ++ [doc])

/-- Handler `update_position` (`POST /positions/update/{vehicle_id}`,
`src/main.py` lines 99–112): read `data.get("position")` from the request
body; when it is falsy, not a list, or not of length 2, raise a 400
`HTTPException`; otherwise insert a document with the two elements as
latitude/longitude, the path parameter as `vehicle_id`, the current time as
timestamp, and no `live_location` field. -/
def update_position (vehicle_id : String) (reqBody : List (String × JVal)) (now : Nat)
    (store : Store) : Except HTTPExc ApiStatus × Store :=
  let position := jsonGet reqBody "position"
  if !position.truthy || !position.isList || position.listLen != 2 then
    (Except.error ⟨400, "Invalid position format. Expected [lat, lon]."⟩, store)
  else
    let doc : StoredDoc := ⟨VId.str vehicle_id, position.idx 0, position.idx 1, now, none⟩
    (Except.ok ⟨"Position updated"⟩, store ++ [doc])

/-- The Mongo filter `{"vehicle_id": vehicle_id}` the read endpoints issue,
with the `str` path parameter as the queried value. -/
def vehicleDocs (store : Store) (vehicle_id : String) : List StoredDoc :=
  List.filter (fun d => decide (d.vehicle_id = VId.str vehicle_id)) store

/-- The ordering `.sort("timestamp", -1)` requests: descending timestamp. -/
def tsDescOrder (a b : StoredDoc) : Prop :=
  b.timestamp ≤ a.timestamp

instance : DecidableRel tsDescOrder :=
  fun a b => Nat.decLe b.timestamp a.timestamp

instance : IsTotal StoredDoc tsDescOrder :=
  ⟨fun a b => Nat.le_total b.timestamp a.timestamp⟩

instance : IsTrans StoredDoc tsDescOrder :=
  ⟨fun _ _ _ hab hbc => Nat.le_trans hbc hab⟩

/-- The default of the `limit` query parameter of `GET
/positions/{vehicle_id}`. -/
def defaultPositionsLimit : Nat := 100

/-- Handler `get_positions` (`GET /positions/{vehicle_id}?limit=`,
`src/main.py` lines 114–121): `find({"vehicle_id":
vehicle_id}).sort("timestamp", -1).limit(limit)`, collected into a list.
The sort is modelled by a (stable) insertion sort under `tsDescOrder`;
MongoDB leaves the order among equal timestamps unspecified.  MongoDB's
`cursor.limit(0)` means *no limit*, so `limit = 0` returns the whole
sorted result set; the handler's `limit: int` has no lower bound, so this
value is reachable via `?limit=0`.  (Negative limits, which MongoDB treats
like their absolute value with an eager cursor close, fall outside this
`Nat` model.) -/
def get_positions (vehicle_id : String) (limit : Nat) (store : Store) : List StoredDoc :=
  if limit = 0 then List.insertionSort tsDescOrder (vehicleDocs store vehicle_id)
  else (List.insertionSort tsDescOrder (vehicleDocs store vehicle_id)).take limit

/-- `find_one({"vehicle_id": vehicle_id}, sort=[("timestamp", -1)])`: the
first document of the descending-timestamp ordering, if any. -/
def findLatestDoc (store : Store) (vehicle_id : String) : Option StoredDoc :=
  (List.insertionSort tsDescOrder (vehicleDocs store vehicle_id)).head?

/-- Handler `get_latest_position` (`GET /positions/latest/{vehicle_id}`,
`src/main.py` lines 132–164): 404 when no document matches; otherwise read
`pos.get("live_location")` and, when it is falsy (`None` or the empty
string), recompute a label through the on-read geocoding step
(`resolveLatest`); set the result on the returned document.  No store write
occurs on this path. -/
def get_latest_position (vehicle_id : String) (outcome : GeoOutcome)
    (store : Store) : Except HTTPExc StoredDoc × Store :=
  match findLatestDoc store vehicle_id with
  | none => (Except.error ⟨404, "No positions found for this vehicle"⟩, store)
  | some pos =>
    let live := match pos.live_location with
      | some s => if s != "" then s
                  else resolveLatest outcome pos.latitude.pyStr pos.longitude.pyStr
      | none => resolveLatest outcome pos.latitude.pyStr pos.longitude.pyStr
    (Except.ok ⟨pos.vehicle_id, pos.latitude, pos.longitude, pos.timestamp, some live⟩, store)


/-- The geocoding response body of the specification's Springfield
scenario: an address object with only `city` and `state` populated. -/
def springfieldBody : GeoBody :=
  ⟨some ⟨none, none, none, some "Springfield", none, some "Illinois"⟩, none⟩

/-- A two-record store for vehicle `w1`, timestamps 3 and 9. -/
def wStoreLatest : Store :=
  [⟨VId.str "w1", JVal.num ⟨"1.0"⟩, JVal.num ⟨"2.0"⟩, 3, some "Oslo"⟩,
   ⟨VId.str "w1", JVal.num ⟨"1.5"⟩, JVal.num ⟨"2.5"⟩, 9, some "Berlin"⟩]

/-- A one-record store for vehicle `w6` whose document has no
`live_location` field. -/
def wStoreBackfill : Store :=
  [⟨VId.str "w6", JVal.num ⟨"7.5"⟩, JVal.num ⟨"8.5"⟩, 4, none⟩]

/-- A one-record store for vehicle `w7` whose document has `live_location`
present but equal to the empty string. -/
def wStoreEmptyLabel : Store :=
  [⟨VId.str "w7", JVal.num ⟨"9.5"⟩, JVal.num ⟨"0.5"⟩, 6, some ""⟩]

theorem orS_ne_empty (x : Option String) (y : String) (hy : y ≠ "") : orS x y ≠ "" := by
  cases x with
  | none => exact hy
  | some s =>
    by_cases h : s = ""
    · subst h
      simpa [orS] using hy
    · simp [orS, h]

theorem coordFallback_ne_empty (latS lonS : String) : coordFallback latS lonS ≠ "" := by
  intro h
  have hlen := congrArg String.length h
  simp only [coordFallback, String.length_append] at hlen
  have h1 : (", ").length = 2 := rfl
  have h2 : ("" : String).length = 0 := rfl
  omega

theorem chainLabel_ne_empty (data : GeoBody) (fb : String) (h : fb ≠ "") :
    chainLabel data fb ≠ "" := by
  unfold chainLabel
  exact orS_ne_empty _ _ (orS_ne_empty _ _ (orS_ne_empty _ _ (orS_ne_empty _ _
    (orS_ne_empty _ _ (orS_ne_empty _ _ (orS_ne_empty _ _ h))))))

theorem resolveSubmit_eq_fallback (outcome : GeoOutcome) (latS lonS : String) :
    resolveSubmit outcome latS lonS = coordFallback latS lonS := by
  cases outcome with
  | exn => rfl
  | response status body =>
    show (if (status == 200) = true then
        match awaitRespJson body with
        | Except.ok data => chainLabel data (coordFallback latS lonS)
        | Except.error _ => coordFallback latS lonS
      else coordFallback latS lonS) = coordFallback latS lonS
    by_cases h : (status == 200) = true
    · rw [if_pos h]
      rfl
    · rw [if_neg h]

theorem resolveSubmit_ne_empty (outcome : GeoOutcome) (latS lonS : String) :
    resolveSubmit outcome latS lonS ≠ "" := by
  rw [resolveSubmit_eq_fallback]
  exact coordFallback_ne_empty latS lonS

theorem resolveLatest_eq_resolveSubmit (outcome : GeoOutcome) (latS lonS : String) :
    resolveLatest outcome latS lonS = resolveSubmit outcome latS lonS := by
  cases outcome <;> rfl

/-- C1 counterexample: the claim asserts every persisted position document
has a non-empty `live_location`, explicitly including the lightweight
update path.  Running `update_position` on the valid payload
`position = [3.5, 4.5]` succeeds and persists a document whose
`live_location` is absent: the update handler never sets the field. -/
theorem update_path_stores_no_live_location :
    (update_position "veh1" [("position", JVal.list [JVal.num ⟨"3.5"⟩, JVal.num ⟨"4.5"⟩])] 7 []).1
        = Except.ok ⟨"Position updated"⟩
    ∧ ((update_position "veh1" [("position", JVal.list [JVal.num ⟨"3.5"⟩, JVal.num ⟨"4.5"⟩])] 7 []).2.map
        StoredDoc.live_location) = [none] :=
  ⟨rfl, rfl⟩

/-- C1 (amended): every position document persisted by the enriched submit
operation `POST /positions/` has a non-empty `live_location`, whatever the
geocoding outcome (success, failure, timeout, malformed response); the
lightweight update path stores documents without the field. -/
theorem submit_stores_nonempty_live_location (p : VehiclePosition) (now : Nat)
    (outcome : GeoOutcome) (store : Store) :
    ∃ d : StoredDoc, (save_position p now outcome store).2 = store ++ [d]
      ∧ ∃ lab, d.live_location = some lab ∧ lab ≠ "" := by
  exact ⟨_, rfl, _, rfl, resolveSubmit_ne_empty outcome _ _⟩

/-- C2: for every valid `VehiclePosition` report and every geocoding
outcome — including timeout/transport failure (`GeoOutcome.exn`),
non-success statuses and malformed bodies — `save_position` returns the
success confirmation and appends exactly one document to the store;
resolver failure never prevents the insert. -/
theorem submit_always_persists_one (p : VehiclePosition) (now : Nat)
    (outcome : GeoOutcome) (store : Store) :
    (save_position p now outcome store).1 = ⟨"Position saved successfully"⟩
    ∧ ∃ d, (save_position p now outcome store).2 = store ++ [d] :=
  ⟨rfl, _, rfl⟩

/-- C3: the claim's Springfield scenario evaluated on the code.  With an
HTTP 200 response whose parsed body carries an address with only
`city = "Springfield"` and `state = "Illinois"`, the submit handler's
geocoding step still produces the numeric fallback `"12.34, 56.78"`,
because `await resp.json()` raises a `TypeError` (httpx's `Response.json()`
is synchronous, see `awaitRespJson`) which the bare `except` turns into the
fallback; the preference-chain expression of lines 82–91 (`chainLabel`),
had its input ever been bound, would return `"Springfield"` exactly as the
claim and the code's own comment on line 80 state. -/
theorem submit_success_response_still_falls_back :
    resolveSubmit (GeoOutcome.response 200 (some springfieldBody)) "12.34" "56.78"
        = "12.34, 56.78"
    ∧ chainLabel springfieldBody (coordFallback "12.34" "56.78") = "Springfield" :=
  ⟨rfl, rfl⟩

/-- C4: when the geocoding interaction ends in a raised exception (timeout
or transport failure) or in a response with a non-success status or a
malformed body, the submit-path geocoding step returns exactly the label
`"{latitude}, {longitude}"` built from the decimal renderings of the two
coordinates; being a total function, it never raises to its caller. -/
theorem resolve_failure_fallback_label (latS lonS : String) (status : Nat)
    (body : Option GeoBody) (_h : status ≠ 200 ∨ body = none) :
    resolveSubmit GeoOutcome.exn latS lonS = coordFallback latS lonS
    ∧ resolveSubmit (GeoOutcome.response status body) latS lonS = coordFallback latS lonS :=
  ⟨resolveSubmit_eq_fallback GeoOutcome.exn latS lonS,
   resolveSubmit_eq_fallback (GeoOutcome.response status body) latS lonS⟩

/-- C4 witness: on HTTP 503, `resolve(12.34, 56.78)` returns exactly
`"12.34, 56.78"`. -/
theorem resolve_failure_fallback_label_witness :
    resolveSubmit GeoOutcome.exn "12.34" "56.78" = "12.34, 56.78"
    ∧ resolveSubmit (GeoOutcome.response 503 none) "12.34" "56.78" = "12.34, 56.78" := by
  have h := resolve_failure_fallback_label "12.34" "56.78" 503 none (Or.inl (by decide))
  exact ⟨h.1.trans (by decide), h.2.trans (by decide)⟩

/-- C5 counterexample: the claim asserts a payload whose `position` is a
two-element list with non-numeric elements is rejected with a 400 and
nothing is persisted.  The handler only checks truthiness, `isinstance(...,
list)` and `len == 2`: on `{"position": ["a", "b"]}` it succeeds and
persists a document with the string `"a"` as latitude. -/
theorem update_accepts_non_numeric_pair :
    update_position "v1" [("position", JVal.list [JVal.str "a", JVal.str "b"])] 0 []
      = (Except.ok ⟨"Position updated"⟩,
         [⟨VId.str "v1", JVal.str "a", JVal.str "b", 0, none⟩]) :=
  rfl

/-- C5 (amended): a request to `POST /positions/update/{vehicle_id}` whose
`position` payload is falsy (missing, `null`, empty), not a list, or not of
length exactly 2 fails with the 400 invalid-format error and persists
nothing; element types are not checked, so two-element lists with
non-numeric entries are accepted and persisted as given. -/
theorem update_invalid_shape_rejected (vehicle_id : String)
    (reqBody : List (String × JVal)) (now : Nat) (store : Store)
    (h : (!(jsonGet reqBody "position").truthy || !(jsonGet reqBody "position").isList
          || (jsonGet reqBody "position").listLen != 2) = true) :
    update_position vehicle_id reqBody now store
      = (Except.error ⟨400, "Invalid position format. Expected [lat, lon]."⟩, store) := by
  simp only [update_position, h, if_true]

/-- C5 witness: the specification's wrong-arity example `{"position":
[1, 2, 3]}` is rejected with status 400 and the store is unchanged. -/
theorem update_invalid_shape_rejected_witness :
    update_position "v9"
        [("position", JVal.list [JVal.num ⟨"1"⟩, JVal.num ⟨"2"⟩, JVal.num ⟨"3"⟩])] 3 []
      = (Except.error ⟨400, "Invalid position format. Expected [lat, lon]."⟩, []) :=
  update_invalid_shape_rejected "v9"
    [("position", JVal.list [JVal.num ⟨"1"⟩, JVal.num ⟨"2"⟩, JVal.num ⟨"3"⟩])] 3 [] rfl

/-- C9: for every geocoding outcome and every coordinate pair, both the
submit-path and the latest-path geocoding steps return a non-empty string;
the empty string is never produced as a location label. -/
theorem resolve_always_nonempty (outcome : GeoOutcome) (latS lonS : String) :
    resolveSubmit outcome latS lonS ≠ "" ∧ resolveLatest outcome latS lonS ≠ "" := by
  refine ⟨resolveSubmit_ne_empty outcome latS lonS, ?_⟩
  rw [resolveLatest_eq_resolveSubmit]
  exact resolveSubmit_ne_empty outcome latS lonS

/-- C9 witness: a concrete instantiation at a successful-response outcome. -/
theorem resolve_always_nonempty_witness :
    resolveSubmit (GeoOutcome.response 200 (some ⟨none, none⟩)) "3.1" "4.1" ≠ ""
    ∧ resolveLatest (GeoOutcome.response 200 (some ⟨none, none⟩)) "3.1" "4.1" ≠ "" :=
  resolve_always_nonempty (GeoOutcome.response 200 (some ⟨none, none⟩)) "3.1" "4.1"

/-- C6: when the most recent stored position of a vehicle lacks a
`live_location` field, `get_latest_position` computes a backfilled label
through the on-read geocoding step, returns the document with that label
set, and performs no write: the store is returned unchanged, so the label
is recomputed from the per-request geocoding outcome on every such read.
The on-read step is extensionally identical to the submit-path step and
runs under its own shorter client timeout (5.0 s versus 10.0 s). -/
theorem latest_backfill_no_write (vehicle_id : String) (outcome : GeoOutcome)
    (store : Store) (pos : StoredDoc)
    (hpos : findLatestDoc store vehicle_id = some pos)
    (hmiss : pos.live_location = none) :
    (get_latest_position vehicle_id outcome store).1
      = Except.ok ⟨pos.vehicle_id, pos.latitude, pos.longitude, pos.timestamp,
          some (resolveLatest outcome pos.latitude.pyStr pos.longitude.pyStr)⟩
    ∧ (get_latest_position vehicle_id outcome store).2 = store
    ∧ (∀ (o : GeoOutcome) (la lo : String), resolveLatest o la lo = resolveSubmit o la lo)
    ∧ latestGeocodeTimeout < submitGeocodeTimeout := by
  refine ⟨?_, ?_, resolveLatest_eq_resolveSubmit, ?_⟩
  · simp [get_latest_position, hpos, hmiss]
  · simp [get_latest_position, hpos]
  · norm_num [latestGeocodeTimeout, submitGeocodeTimeout]

/-- C6 witness: a store whose only `w6` document has no `live_location`,
read under a timed-out geocoding call. -/
theorem latest_backfill_no_write_witness :
    (get_latest_position "w6" GeoOutcome.exn wStoreBackfill).1
      = Except.ok ⟨VId.str "w6", JVal.num ⟨"7.5"⟩, JVal.num ⟨"8.5"⟩, 4,
          some (resolveLatest GeoOutcome.exn (JVal.num ⟨"7.5"⟩).pyStr (JVal.num ⟨"8.5"⟩).pyStr)⟩
    ∧ (get_latest_position "w6" GeoOutcome.exn wStoreBackfill).2 = wStoreBackfill
    ∧ (∀ (o : GeoOutcome) (la lo : String), resolveLatest o la lo = resolveSubmit o la lo)
    ∧ latestGeocodeTimeout < submitGeocodeTimeout :=
  latest_backfill_no_write "w6" GeoOutcome.exn wStoreBackfill
    ⟨VId.str "w6", JVal.num ⟨"7.5"⟩, JVal.num ⟨"8.5"⟩, 4, none⟩ rfl rfl

theorem get_positions_sublist (vehicle_id : String) (limit : Nat) (store : Store) :
    List.Sublist (get_positions vehicle_id limit store)
      (List.insertionSort tsDescOrder (vehicleDocs store vehicle_id)) := by
  unfold get_positions
  split
  · exact List.Sublist.refl _
  · exact List.take_sublist limit _

/-- C7 counterexample: the claim asserts the result contains at most
`limit` entries for *every* limit, but MongoDB's `cursor.limit(0)` means no
limit, and the handler accepts `?limit=0`: on a store with two `w1`
records, `limit = 0` returns both — not at most zero. -/
theorem list_positions_limit_zero_returns_all :
    (get_positions "w1" 0 wStoreLatest).length = 2
    ∧ ¬((get_positions "w1" 0 wStoreLatest).length ≤ 0) :=
  ⟨rfl, by decide⟩

/-- C7 (amended): for every nonzero limit, `get_positions` returns only
documents of the queried vehicle that are in the store, ordered by
descending timestamp (most recent first), with exactly `min limit count`
entries — at most `limit`, and exactly `limit` whenever at least `limit`
matching records exist.  `limit = 0` is MongoDB's no-limit and returns all
matching documents.  The default of the `limit` query parameter is 100. -/
theorem list_positions_sorted_capped (vehicle_id : String) (limit : Nat) (store : Store)
    (hlim : limit ≠ 0) :
    (∀ d ∈ get_positions vehicle_id limit store, d ∈ store ∧ d.vehicle_id = VId.str vehicle_id)
    ∧ List.Sorted tsDescOrder (get_positions vehicle_id limit store)
    ∧ (get_positions vehicle_id limit store).length = min limit (vehicleDocs store vehicle_id).length
    ∧ (get_positions vehicle_id 0 store).length = (vehicleDocs store vehicle_id).length
    ∧ defaultPositionsLimit = 100 := by
  refine ⟨?_, ?_, ?_, ?_, rfl⟩
  · intro d hd
    have hs : d ∈ List.insertionSort tsDescOrder (vehicleDocs store vehicle_id) :=
      (get_positions_sublist vehicle_id limit store).subset hd
    have hf : d ∈ vehicleDocs store vehicle_id := (List.mem_insertionSort tsDescOrder).mp hs
    have hm := List.mem_filter.mp hf
    exact ⟨hm.1, of_decide_eq_true hm.2⟩
  · exact (List.sorted_insertionSort tsDescOrder (vehicleDocs store vehicle_id)).sublist
      (get_positions_sublist vehicle_id limit store)
  · have hlen := List.length_insertionSort tsDescOrder (vehicleDocs store vehicle_id)
    simp [get_positions, hlim, List.length_take, hlen]
  · have hlen := List.length_insertionSort tsDescOrder (vehicleDocs store vehicle_id)
    simp [get_positions, hlen]

/-- C8: querying the latest position of a vehicle with no matching stored
document fails with the 404 not-found error; when a matching document
exists, the returned document is the most recent one: it carries the fields
of a stored match whose timestamp is greatest among all matches. -/
theorem latest_404_or_max_timestamp (vehicle_id : String) (outcome : GeoOutcome)
    (store : Store) :
    (vehicleDocs store vehicle_id = [] →
      (get_latest_position vehicle_id outcome store).1
        = Except.error ⟨404, "No positions found for this vehicle"⟩)
    ∧ (vehicleDocs store vehicle_id ≠ [] →
        ∃ pos, findLatestDoc store vehicle_id = some pos)
    ∧ (∀ pos, findLatestDoc store vehicle_id = some pos →
        pos ∈ vehicleDocs store vehicle_id
        ∧ (∀ d ∈ vehicleDocs store vehicle_id, d.timestamp ≤ pos.timestamp)
        ∧ ∃ live, (get_latest_position vehicle_id outcome store).1
            = Except.ok ⟨pos.vehicle_id, pos.latitude, pos.longitude, pos.timestamp, some live⟩) := by
  refine ⟨?_, ?_, ?_⟩
  · intro h
    have : findLatestDoc store vehicle_id = none := by
      simp [findLatestDoc, h]
    simp [get_latest_position, this]
  · intro h
    have hne : List.insertionSort tsDescOrder (vehicleDocs store vehicle_id) ≠ [] := by
      intro hc
      have := List.length_insertionSort tsDescOrder (vehicleDocs store vehicle_id)
      rw [hc] at this
      exact h (List.length_eq_zero.mp this.symm)
    cases hs : List.insertionSort tsDescOrder (vehicleDocs store vehicle_id) with
    | nil => exact absurd hs hne
    | cons a t => exact ⟨a, by simp [findLatestDoc, hs]⟩
  · intro pos hpos
    have hsorted := List.sorted_insertionSort tsDescOrder (vehicleDocs store vehicle_id)
    cases hs : List.insertionSort tsDescOrder (vehicleDocs store vehicle_id) with
    | nil =>
      rw [findLatestDoc, hs] at hpos
      exact absurd hpos (by simp)
    | cons a t =>
      have hpos0 := hpos
      rw [findLatestDoc, hs] at hpos
      have ha : pos = a := by simpa using hpos.symm
      subst ha
      rw [hs] at hsorted
      have hmem : pos ∈ vehicleDocs store vehicle_id := by
        have : pos ∈ List.insertionSort tsDescOrder (vehicleDocs store vehicle_id) := by
          rw [hs]; exact List.mem_cons_self pos t
        exact (List.mem_insertionSort tsDescOrder).mp this
      refine ⟨hmem, ?_, ?_⟩
      · intro d hd
        have hds : d ∈ List.insertionSort tsDescOrder (vehicleDocs store vehicle_id) :=
          (List.mem_insertionSort tsDescOrder).mpr hd
        rw [hs] at hds
        rcases List.mem_cons.mp hds with h1 | h2
        · rw [h1]
        · exact List.rel_of_sorted_cons hsorted d h2
      · refine ⟨(match pos.live_location with
          | some s => if s != "" then s
                      else resolveLatest outcome pos.latitude.pyStr pos.longitude.pyStr
          | none => resolveLatest outcome pos.latitude.pyStr pos.longitude.pyStr), ?_⟩
        simp only [get_latest_position, hpos0]

/-- C8 witness: an empty store yields the 404 error, and on a two-record
store for `w1` the record with the greater timestamp (9) is selected. -/
theorem latest_404_or_max_timestamp_witness :
    (get_latest_position "w1" GeoOutcome.exn []).1
        = Except.error ⟨404, "No positions found for this vehicle"⟩
    ∧ ((⟨VId.str "w1", JVal.num ⟨"1.5"⟩, JVal.num ⟨"2.5"⟩, 9, some "Berlin"⟩ : StoredDoc)
          ∈ vehicleDocs wStoreLatest "w1"
        ∧ (∀ d ∈ vehicleDocs wStoreLatest "w1", d.timestamp ≤ 9)
        ∧ ∃ live, (get_latest_position "w1" GeoOutcome.exn wStoreLatest).1
            = Except.ok ⟨VId.str "w1", JVal.num ⟨"1.5"⟩, JVal.num ⟨"2.5"⟩, 9, some live⟩) := by
  refine ⟨(latest_404_or_max_timestamp "w1" GeoOutcome.exn []).1 rfl, ?_⟩
  exact (latest_404_or_max_timestamp "w1" GeoOutcome.exn wStoreLatest).2.2
    ⟨VId.str "w1", JVal.num ⟨"1.5"⟩, JVal.num ⟨"2.5"⟩, 9, some "Berlin"⟩ rfl

/-- C10: a stored `live_location` equal to the empty string is falsy in the
handler's `if not live_location:` test, so `get_latest_position` treats it
exactly like an absent field: it recomputes the label through the on-read
geocoding step, and the `live_location` of the returned document is never
the empty string. -/
theorem latest_empty_string_backfilled (vehicle_id : String) (outcome : GeoOutcome)
    (store : Store) (pos : StoredDoc)
    (hpos : findLatestDoc store vehicle_id = some pos)
    (hempty : pos.live_location = some "") :
    (get_latest_position vehicle_id outcome store).1
      = Except.ok ⟨pos.vehicle_id, pos.latitude, pos.longitude, pos.timestamp,
          some (resolveLatest outcome pos.latitude.pyStr pos.longitude.pyStr)⟩
    ∧ resolveLatest outcome pos.latitude.pyStr pos.longitude.pyStr ≠ "" := by
  refine ⟨?_, ?_⟩
  · simp [get_latest_position, hpos, hempty]
  · rw [resolveLatest_eq_resolveSubmit]
    exact resolveSubmit_ne_empty outcome _ _

/-- C10 witness: a store whose only `w7` document carries `live_location =
""`, read under a timed-out geocoding call. -/
theorem latest_empty_string_backfilled_witness :
    (get_latest_position "w7" GeoOutcome.exn wStoreEmptyLabel).1
      = Except.ok ⟨VId.str "w7", JVal.num ⟨"9.5"⟩, JVal.num ⟨"0.5"⟩, 6,
          some (resolveLatest GeoOutcome.exn (JVal.num ⟨"9.5"⟩).pyStr (JVal.num ⟨"0.5"⟩).pyStr)⟩
    ∧ resolveLatest GeoOutcome.exn (JVal.num ⟨"9.5"⟩).pyStr (JVal.num ⟨"0.5"⟩).pyStr ≠ "" :=
  latest_empty_string_backfilled "w7" GeoOutcome.exn wStoreEmptyLabel
    ⟨VId.str "w7", JVal.num ⟨"9.5"⟩, JVal.num ⟨"0.5"⟩, 6, some ""⟩ rfl rfl

/-- C7 witness: on the two-record `w1` store with limit 1 the result
length is `min 1 2 = 1`. -/
theorem list_positions_sorted_capped_witness :
    (get_positions "w1" 1 wStoreLatest).length = min 1 (vehicleDocs wStoreLatest "w1").length :=
  (list_positions_sorted_capped "w1" 1 wStoreLatest (by decide)).2.2.1
